import Mathlib

/-
Verification of the root-span builder of tracing-actix-web
(src/root_span_builder.rs).

The embedding models a tracing span as the ordered list of field
recordings performed on it.  `span.record(name, value)` appends a
(name, value) pair; the values recorded by this code are either an
i32 (modelled as Int, with the u16 domain made explicit) or a plain
string (both bare string literals and values wrapped in
tracing::field::display, which renders a string).
-/

namespace TracingActixWeb

/-- A value recorded into a span field: an integer (i32) or plain text. -/
inductive FieldValue where
  | int (i : Int)
  | str (s : String)
deriving DecidableEq, Repr

/-- A tracing span, modelled as the ordered list of field recordings. -/
structure Span where
  fields : List (String × FieldValue)
deriving DecidableEq, Repr

/-- Model of tracing's Span::record: append one (name, value) recording. -/
def Span.record (span : Span) (name : String) (v : FieldValue) : Span :=
  Span.mk (span.fields ++ [(name, v)])

/-- All values recorded under a given field name, in order. -/
def Span.lookup (span : Span) (name : String) : List FieldValue :=
  (span.fields.filter (fun p => p.1 == name)).map Prod.snd

/-- Append a batch of recordings to a span. -/
def Span.append (span : Span) (l : List (String × FieldValue)) : Span :=
  Span.mk (span.fields ++ l)

/-- actix_web::http::StatusCode, carrying its numeric code. -/
structure StatusCode where
  code : Nat
deriving DecidableEq, Repr

/-- StatusCode::as_u16: the status code as a u16 value. -/
def StatusCode.as_u16 (s : StatusCode) : Nat := s.code % 65536

/-- StatusCode::from_u16 accepts 100..=999; a representable status code. -/
abbrev StatusCode.isValid (s : StatusCode) : Prop := 100 ≤ s.code ∧ s.code ≤ 999

/-- StatusCode::is_client_error: 400..=499. -/
def StatusCode.is_client_error (s : StatusCode) : Bool :=
  400 ≤ s.as_u16 && s.as_u16 ≤ 499

/-- The widening conversion u16 -> i32 (the `.into()` on line 54/193);
the % 65536 makes the u16 domain of the argument explicit. -/
def i32_of_u16 (n : Nat) : Int := Int.ofNat (n % 65536)

/-- A value implementing actix_web::ResponseError: it has a status code
and Display / Debug renderings (the strings produced by format).  The
renderings are carried as data because the embedding is pure. -/
structure ResponseError where
  display : String
  debug : String
  status_code : StatusCode
deriving DecidableEq, Repr

/-- actix_web::Error; as_response_error exposes the underlying
ResponseError. -/
structure Error where
  response_error : ResponseError
deriving DecidableEq, Repr

def Error.as_response_error (e : Error) : ResponseError := e.response_error

/-- actix_web HttpResponse as seen by this code: its status and the
optional error it was built from (HttpResponse::error). -/
structure HttpResponse where
  status : StatusCode
  error : Option Error
deriving DecidableEq, Repr

/-- actix_web::dev::ServiceResponse, wrapping the HTTP response. -/
structure ServiceResponse where
  response : HttpResponse
deriving DecidableEq, Repr

/-- ServiceResponse::status delegates to the inner response status. -/
def ServiceResponse.status (r : ServiceResponse) : StatusCode := r.response.status

/-- The outcome handed to on_request_end:
Result of a ServiceResponse or an Error. -/
abbrev Outcome := Except Error ServiceResponse

/-- handle_error (root_span_builder.rs lines 187-202): record the
pre-formatted Display and Debug text of the error, the numeric status
code, and the OpenTelemetry status classification. -/
def handle_error (span : Span) (status_code : StatusCode)
    (response_error : ResponseError) : Span :=
  let display := response_error.display
  let debug := response_error.debug
  let span := span.record "exception.message" (FieldValue.str display)
  let span := span.record "exception.details" (FieldValue.str debug)
  let code : Int := i32_of_u16 status_code.as_u16
  let span := span.record "http.status_code" (FieldValue.int code)
  if status_code.is_client_error then
    span.record "otel.status_code" (FieldValue.str "OK")
  else
    span.record "otel.status_code" (FieldValue.str "ERROR")

/-- DefaultRootSpanBuilder::on_request_end (lines 47-64). -/
def DefaultRootSpanBuilder.on_request_end (span : Span) (outcome : Outcome) :
    Span :=
  match outcome with
  | Except.ok response =>
    match response.response.error with
    | some error =>
      handle_error span response.status error.as_response_error
    | none =>
      let code : Int := i32_of_u16 response.response.status.as_u16
      let span := span.record "http.status_code" (FieldValue.int code)
      span.record "otel.status_code" (FieldValue.str "OK")
  | Except.error error =>
    let response_error := error.as_response_error
    handle_error span response_error.status_code response_error

/-- The four recordings handle_error performs, as a flat list. -/
def error_fields (status_code : StatusCode) (response_error : ResponseError) :
    List (String × FieldValue) :=
  [("exception.message", FieldValue.str response_error.display),
   ("exception.details", FieldValue.str response_error.debug),
   ("http.status_code", FieldValue.int (i32_of_u16 status_code.as_u16)),
   ("otel.status_code",
     FieldValue.str (if status_code.is_client_error then "OK" else "ERROR"))]

/-- The recordings on_request_end performs for a given outcome. -/
def end_fields (outcome : Outcome) : List (String × FieldValue) :=
  match outcome with
  | Except.ok response =>
    match response.response.error with
    | some error => error_fields response.status error.as_response_error
    | none =>
      [("http.status_code",
         FieldValue.int (i32_of_u16 response.response.status.as_u16)),
       ("otel.status_code", FieldValue.str "OK")]
  | Except.error error =>
    error_fields error.as_response_error.status_code error.as_response_error

/-- The status code whose numeric value lands in http.status_code. -/
def recorded_status (outcome : Outcome) : StatusCode :=
  match outcome with
  | Except.ok response => response.status
  | Except.error error => error.as_response_error.status_code

/-- The verbosity level of a tracing span. -/
inductive Level where
  | trace
  | debug
  | info
  | warn
  | error
deriving DecidableEq, Repr

/-- The request data the root span is populated from (the attributes the
root_span macro captures, per the documentation of
DefaultRootSpanBuilder). -/
structure ServiceRequest where
  http_method : String
  http_route : String
  http_flavor : String
  http_host : String
  http_client_ip : String
  http_user_agent : String
  http_target : String
  request_id : String
  trace_id : String
deriving DecidableEq, Repr

/-- A freshly created root span: its verbosity level and its initial
attributes. -/
structure CreatedSpan where
  level : Level
  attrs : List (String × FieldValue)
deriving DecidableEq, Repr

/-- Modelled from the spec: the root_span macro and its level variants
(trace_root_span, debug_root_span, info_root_span, warn_root_span,
error_root_span) are defined outside src/root_span_builder.rs.  Per the
spec each of them populates the span with the same standard HTTP request
attributes and the OpenTelemetry span kind, differing only in the
verbosity level of the emitted span. -/
def root_span_attrs (r : ServiceRequest) : List (String × FieldValue) :=
  [("http.method", FieldValue.str r.http_method),
   ("http.route", FieldValue.str r.http_route),
   ("http.flavor", FieldValue.str r.http_flavor),
   ("http.host", FieldValue.str r.http_host),
   ("http.client_ip", FieldValue.str r.http_client_ip),
   ("http.user_agent", FieldValue.str r.http_user_agent),
   ("http.target", FieldValue.str r.http_target),
   ("request_id", FieldValue.str r.request_id),
   ("trace_id", FieldValue.str r.trace_id),
   ("otel.kind", FieldValue.str "server")]

/-- DefaultRootSpanBuilder::on_request_start: root_span at info level. -/
def DefaultRootSpanBuilder.on_request_start (r : ServiceRequest) :
    CreatedSpan :=
  CreatedSpan.mk Level.info (root_span_attrs r)

/-- TraceRootSpanBuilder::on_request_start: trace_root_span. -/
def TraceRootSpanBuilder.on_request_start (r : ServiceRequest) :
    CreatedSpan :=
  CreatedSpan.mk Level.trace (root_span_attrs r)

/-- TraceRootSpanBuilder::on_request_end delegates to the default
builder (lines 86-88). -/
def TraceRootSpanBuilder.on_request_end (span : Span) (outcome : Outcome) :
    Span :=
  DefaultRootSpanBuilder.on_request_end span outcome

/-- DebugRootSpanBuilder::on_request_start: debug_root_span. -/
def DebugRootSpanBuilder.on_request_start (r : ServiceRequest) :
    CreatedSpan :=
  CreatedSpan.mk Level.debug (root_span_attrs r)

/-- DebugRootSpanBuilder::on_request_end delegates to the default
builder (lines 110-112). -/
def DebugRootSpanBuilder.on_request_end (span : Span) (outcome : Outcome) :
    Span :=
  DefaultRootSpanBuilder.on_request_end span outcome

/-- InfoRootSpanBuilder::on_request_start: info_root_span. -/
def InfoRootSpanBuilder.on_request_start (r : ServiceRequest) :
    CreatedSpan :=
  CreatedSpan.mk Level.info (root_span_attrs r)

/-- InfoRootSpanBuilder::on_request_end delegates to the default
builder (lines 134-136). -/
def InfoRootSpanBuilder.on_request_end (span : Span) (outcome : Outcome) :
    Span :=
  DefaultRootSpanBuilder.on_request_end span outcome

/-- WarnRootSpanBuilder::on_request_start: warn_root_span. -/
def WarnRootSpanBuilder.on_request_start (r : ServiceRequest) :
    CreatedSpan :=
  CreatedSpan.mk Level.warn (root_span_attrs r)

/-- WarnRootSpanBuilder::on_request_end delegates to the default
builder (lines 158-160). -/
def WarnRootSpanBuilder.on_request_end (span : Span) (outcome : Outcome) :
    Span :=
  DefaultRootSpanBuilder.on_request_end span outcome

/-- ErrorRootSpanBuilder::on_request_start: error_root_span. -/
def ErrorRootSpanBuilder.on_request_start (r : ServiceRequest) :
    CreatedSpan :=
  CreatedSpan.mk Level.error (root_span_attrs r)

/-- ErrorRootSpanBuilder::on_request_end delegates to the default
builder (lines 182-184). -/
def ErrorRootSpanBuilder.on_request_end (span : Span) (outcome : Outcome) :
    Span :=
  DefaultRootSpanBuilder.on_request_end span outcome

/-- The span together with the outcome it is finalized from, as one
state; used to express that on_request_end only writes to the span and
leaves the outcome untouched (it receives the outcome by shared
reference). -/
structure EndState where
  span : Span
  outcome : Outcome
deriving Repr

/-- handle_error, threaded through the whole state. -/
def handle_error_st (st : EndState) (status_code : StatusCode)
    (response_error : ResponseError) : EndState :=
  let st := { st with
    span := st.span.record "exception.message"
      (FieldValue.str response_error.display) }
  let st := { st with
    span := st.span.record "exception.details"
      (FieldValue.str response_error.debug) }
  let st := { st with
    span := st.span.record "http.status_code"
      (FieldValue.int (i32_of_u16 status_code.as_u16)) }
  if status_code.is_client_error then
    { st with
      span := st.span.record "otel.status_code" (FieldValue.str "OK") }
  else
    { st with
      span := st.span.record "otel.status_code" (FieldValue.str "ERROR") }

/-- on_request_end, threaded through the whole state. -/
def on_request_end_st (st : EndState) : EndState :=
  match st.outcome with
  | Except.ok response =>
    match response.response.error with
    | some error =>
      handle_error_st st response.status error.as_response_error
    | none =>
      let st := { st with
        span := st.span.record "http.status_code"
          (FieldValue.int (i32_of_u16 response.response.status.as_u16)) }
      { st with
        span := st.span.record "otel.status_code" (FieldValue.str "OK") }
  | Except.error error =>
    handle_error_st st error.as_response_error.status_code
      error.as_response_error

theorem handle_error_st_eq (st : EndState) (s : StatusCode)
    (re : ResponseError) :
    handle_error_st st s re = EndState.mk (handle_error st.span s re) st.outcome := by
  by_cases h : s.is_client_error = true <;>
    simp [handle_error_st, handle_error, h]

theorem on_request_end_st_eq (st : EndState) :
    on_request_end_st st
      = EndState.mk (DefaultRootSpanBuilder.on_request_end st.span st.outcome)
          st.outcome := by
  rcases st with ⟨span, outcome⟩
  cases outcome with
  | ok r =>
    cases h : r.response.error with
    | none =>
      simp [on_request_end_st, DefaultRootSpanBuilder.on_request_end, h]
    | some e =>
      simp [on_request_end_st, DefaultRootSpanBuilder.on_request_end, h,
        handle_error_st_eq]
  | error e =>
    simp [on_request_end_st, DefaultRootSpanBuilder.on_request_end,
      handle_error_st_eq]

theorem handle_error_eq (span : Span) (s : StatusCode) (re : ResponseError) :
    handle_error span s re = span.append (error_fields s re) := by
  by_cases h : s.is_client_error = true <;>
    simp [handle_error, error_fields, Span.append, Span.record, h]

theorem on_request_end_eq (span : Span) (outcome : Outcome) :
    DefaultRootSpanBuilder.on_request_end span outcome
      = span.append (end_fields outcome) := by
  cases outcome with
  | ok r =>
    cases h : r.response.error with
    | none =>
      simp [DefaultRootSpanBuilder.on_request_end, end_fields, h,
        Span.append, Span.record]
    | some e =>
      simp [DefaultRootSpanBuilder.on_request_end, end_fields, h,
        handle_error_eq]
  | error e =>
    simp [DefaultRootSpanBuilder.on_request_end, end_fields, handle_error_eq]

theorem lookup_append (span : Span) (l : List (String × FieldValue))
    (n : String) :
    Span.lookup (span.append l) n = Span.lookup span n ++ Span.lookup ⟨l⟩ n := by
  simp [Span.lookup, Span.append, List.filter_append]

theorem is_client_error_iff (s : StatusCode) :
    s.is_client_error = true ↔ (400 ≤ s.as_u16 ∧ s.as_u16 ≤ 499) := by
  simp [StatusCode.is_client_error]

theorem i32_of_u16_code (s : StatusCode) (h : s.code < 65536) :
    i32_of_u16 s.as_u16 = Int.ofNat s.code := by
  unfold i32_of_u16 StatusCode.as_u16
  congr 1
  omega

theorem lookup_error_fields_message (s : StatusCode) (re : ResponseError) :
    Span.lookup (Span.mk (error_fields s re)) "exception.message"
      = [FieldValue.str re.display] := rfl

theorem lookup_error_fields_details (s : StatusCode) (re : ResponseError) :
    Span.lookup (Span.mk (error_fields s re)) "exception.details"
      = [FieldValue.str re.debug] := rfl

theorem lookup_error_fields_status (s : StatusCode) (re : ResponseError) :
    Span.lookup (Span.mk (error_fields s re)) "http.status_code"
      = [FieldValue.int (i32_of_u16 s.as_u16)] := rfl

theorem lookup_error_fields_otel (s : StatusCode) (re : ResponseError) :
    Span.lookup (Span.mk (error_fields s re)) "otel.status_code"
      = [FieldValue.str
          (if 400 ≤ s.as_u16 ∧ s.as_u16 ≤ 499 then "OK" else "ERROR")] := by
  show [FieldValue.str (if s.is_client_error then "OK" else "ERROR")] = _
  by_cases hc : 400 ≤ s.as_u16 ∧ s.as_u16 ≤ 499
  · rw [if_pos ((is_client_error_iff s).mpr hc), if_pos hc]
  · rw [if_neg (fun hb => hc ((is_client_error_iff s).mp hb)), if_neg hc]

theorem lookup_ok_fields_status (c : Int) :
    Span.lookup
      (Span.mk [("http.status_code", FieldValue.int c),
                ("otel.status_code", FieldValue.str "OK")])
      "http.status_code" = [FieldValue.int c] := rfl

theorem lookup_ok_fields_otel (c : Int) :
    Span.lookup
      (Span.mk [("http.status_code", FieldValue.int c),
                ("otel.status_code", FieldValue.str "OK")])
      "otel.status_code" = [FieldValue.str "OK"] := rfl

/-- C1: the claim quantifies over every Ok outcome, but an Ok response
that carries an embedded error with a non-4xx status is classified
"ERROR", not "OK": with status 500 and an embedded error,
otel.status_code is recorded as "ERROR". -/
theorem C1_claim_counterexample :
    Span.lookup
      (DefaultRootSpanBuilder.on_request_end (Span.mk [])
        (Except.ok (ServiceResponse.mk (HttpResponse.mk (StatusCode.mk 500)
          (some (Error.mk
            (ResponseError.mk "internal error" "InternalError"
              (StatusCode.mk 500))))))))
      "otel.status_code" = [FieldValue.str "ERROR"]
    ∧ FieldValue.str "ERROR" ≠ FieldValue.str "OK" := by
  decide

/-- C1 (amended): for every Ok outcome whose response carries no
embedded error, on_request_end records http.status_code as the
response status S (widened to i32) and otel.status_code as "OK". -/
theorem C1_success_records (span : Span) (r : ServiceResponse)
    (h : r.response.error = none) :
    Span.lookup (DefaultRootSpanBuilder.on_request_end span (Except.ok r))
        "http.status_code"
      = Span.lookup span "http.status_code"
          ++ [FieldValue.int (i32_of_u16 r.response.status.as_u16)]
    ∧ Span.lookup (DefaultRootSpanBuilder.on_request_end span (Except.ok r))
        "otel.status_code"
      = Span.lookup span "otel.status_code" ++ [FieldValue.str "OK"] := by
  simp only [on_request_end_eq, lookup_append, end_fields, h,
    lookup_ok_fields_status, lookup_ok_fields_otel]
  exact ⟨trivial, trivial⟩

/-- C1 witness: the amended theorem applied to an error-free 200
response over an empty span. -/
theorem C1_success_records_witness :
    (ServiceResponse.mk (HttpResponse.mk (StatusCode.mk 200) none)).response.error
        = none
    ∧ (Span.lookup
          (DefaultRootSpanBuilder.on_request_end (Span.mk [])
            (Except.ok (ServiceResponse.mk
              (HttpResponse.mk (StatusCode.mk 200) none))))
          "http.status_code"
        = Span.lookup (Span.mk []) "http.status_code"
            ++ [FieldValue.int (i32_of_u16
                 (ServiceResponse.mk (HttpResponse.mk (StatusCode.mk 200)
                   none)).response.status.as_u16)]
      ∧ Span.lookup
          (DefaultRootSpanBuilder.on_request_end (Span.mk [])
            (Except.ok (ServiceResponse.mk
              (HttpResponse.mk (StatusCode.mk 200) none))))
          "otel.status_code"
        = Span.lookup (Span.mk []) "otel.status_code"
            ++ [FieldValue.str "OK"]) :=
  ⟨rfl, C1_success_records (Span.mk [])
    (ServiceResponse.mk (HttpResponse.mk (StatusCode.mk 200) none)) rfl⟩

/-- C2: for every Err outcome, the error's own status code S is
recorded in http.status_code (as its exact numeric value, S being
representable) and otel.status_code is "OK" when S is 4xx and "ERROR"
otherwise. -/
theorem C2_error_outcome_records (span : Span) (e : Error)
    (h : e.as_response_error.status_code.isValid) :
    Span.lookup (DefaultRootSpanBuilder.on_request_end span (Except.error e))
        "http.status_code"
      = Span.lookup span "http.status_code"
          ++ [FieldValue.int (Int.ofNat e.as_response_error.status_code.code)]
    ∧ Span.lookup (DefaultRootSpanBuilder.on_request_end span (Except.error e))
        "otel.status_code"
      = Span.lookup span "otel.status_code"
          ++ [FieldValue.str
               (if 400 ≤ e.as_response_error.status_code.as_u16
                   ∧ e.as_response_error.status_code.as_u16 ≤ 499
                then "OK" else "ERROR")] := by
  have hlt : e.as_response_error.status_code.code < 65536 := by
    rcases h with ⟨h1, h2⟩
    omega
  have hst : Span.lookup
      (Span.mk (error_fields e.as_response_error.status_code
        e.as_response_error)) "http.status_code"
      = [FieldValue.int (Int.ofNat e.as_response_error.status_code.code)] := by
    rw [lookup_error_fields_status, i32_of_u16_code _ hlt]
  simp only [on_request_end_eq, lookup_append, end_fields, hst,
    lookup_error_fields_otel]
  exact ⟨trivial, trivial⟩

/-- C2 witness: the theorem applied to an Err outcome carrying a 404
error over an empty span. -/
theorem C2_error_outcome_records_witness :
    (Error.mk (ResponseError.mk "not found" "NotFound"
        (StatusCode.mk 404))).as_response_error.status_code.isValid
    ∧ (Span.lookup
          (DefaultRootSpanBuilder.on_request_end (Span.mk [])
            (Except.error (Error.mk (ResponseError.mk "not found" "NotFound"
              (StatusCode.mk 404)))))
          "http.status_code"
        = Span.lookup (Span.mk []) "http.status_code"
            ++ [FieldValue.int (Int.ofNat
                 (Error.mk (ResponseError.mk "not found" "NotFound"
                   (StatusCode.mk 404))).as_response_error.status_code.code)]
      ∧ Span.lookup
          (DefaultRootSpanBuilder.on_request_end (Span.mk [])
            (Except.error (Error.mk (ResponseError.mk "not found" "NotFound"
              (StatusCode.mk 404)))))
          "otel.status_code"
        = Span.lookup (Span.mk []) "otel.status_code"
            ++ [FieldValue.str
                 (if 400 ≤ (Error.mk (ResponseError.mk "not found" "NotFound"
                       (StatusCode.mk 404))).as_response_error.status_code.as_u16
                     ∧ (Error.mk (ResponseError.mk "not found" "NotFound"
                       (StatusCode.mk 404))).as_response_error.status_code.as_u16
                       ≤ 499
                  then "OK" else "ERROR")]) :=
  ⟨by decide,
   C2_error_outcome_records (Span.mk [])
     (Error.mk (ResponseError.mk "not found" "NotFound" (StatusCode.mk 404)))
     (by decide)⟩

/-- C3: the claim says "ERROR" is recorded exactly for server errors
(5xx), but handle_error records "ERROR" for every non-4xx status: an
Err outcome whose error reports status 200 — outside both 4xx and
5xx — still gets otel.status_code "ERROR". -/
theorem C3_claim_counterexample :
    Span.lookup
      (DefaultRootSpanBuilder.on_request_end (Span.mk [])
        (Except.error (Error.mk
          (ResponseError.mk "benign" "Benign" (StatusCode.mk 200)))))
      "otel.status_code" = [FieldValue.str "ERROR"]
    ∧ ¬ (500 ≤ (StatusCode.mk 200).as_u16 ∧ (StatusCode.mk 200).as_u16 ≤ 599) := by
  decide

/-- C3 (amended): otel.status_code is "OK" when the outcome is an Ok
response with no embedded error, or when the governing status (the
response status for an Ok response with an embedded error, the error's
own status for an Err outcome) is a 4xx; it is "ERROR" exactly when an
error is present and that status is not a 4xx. -/
theorem C3_otel_characterization (span : Span) (outcome : Outcome) :
    Span.lookup (DefaultRootSpanBuilder.on_request_end span outcome)
        "otel.status_code"
      = Span.lookup span "otel.status_code"
          ++ [FieldValue.str
               (match outcome with
                | Except.ok r =>
                  match r.response.error with
                  | none => "OK"
                  | some _ =>
                    if 400 ≤ r.response.status.as_u16
                        ∧ r.response.status.as_u16 ≤ 499
                    then "OK" else "ERROR"
                | Except.error e =>
                  if 400 ≤ e.as_response_error.status_code.as_u16
                      ∧ e.as_response_error.status_code.as_u16 ≤ 499
                  then "OK" else "ERROR")] := by
  simp only [on_request_end_eq, lookup_append]
  cases outcome with
  | ok r =>
    cases h : r.response.error with
    | none => simp only [end_fields, h, lookup_ok_fields_otel]
    | some e =>
      simp only [end_fields, h, lookup_error_fields_otel,
        ServiceResponse.status]
  | error e => simp only [end_fields, lookup_error_fields_otel]

/-- C4: for every Err outcome, exception.message is recorded as the
Display text of the error and exception.details as its Debug text. -/
theorem C4_exception_text (span : Span) (e : Error) :
    Span.lookup (DefaultRootSpanBuilder.on_request_end span (Except.error e))
        "exception.message"
      = Span.lookup span "exception.message"
          ++ [FieldValue.str e.as_response_error.display]
    ∧ Span.lookup (DefaultRootSpanBuilder.on_request_end span (Except.error e))
        "exception.details"
      = Span.lookup span "exception.details"
          ++ [FieldValue.str e.as_response_error.debug] := by
  simp only [on_request_end_eq, lookup_append, end_fields,
    lookup_error_fields_message, lookup_error_fields_details]
  exact ⟨trivial, trivial⟩

/-- C5: each of the five non-default builders finalizes the span
exactly as the default builder does, and (per the spec-modelled span
creation) the six builders populate the initial span with the same
attributes, differing only in verbosity level. -/
theorem C5_builders_equivalent :
    (∀ (span : Span) (outcome : Outcome),
        TraceRootSpanBuilder.on_request_end span outcome
          = DefaultRootSpanBuilder.on_request_end span outcome)
    ∧ (∀ (span : Span) (outcome : Outcome),
        DebugRootSpanBuilder.on_request_end span outcome
          = DefaultRootSpanBuilder.on_request_end span outcome)
    ∧ (∀ (span : Span) (outcome : Outcome),
        InfoRootSpanBuilder.on_request_end span outcome
          = DefaultRootSpanBuilder.on_request_end span outcome)
    ∧ (∀ (span : Span) (outcome : Outcome),
        WarnRootSpanBuilder.on_request_end span outcome
          = DefaultRootSpanBuilder.on_request_end span outcome)
    ∧ (∀ (span : Span) (outcome : Outcome),
        ErrorRootSpanBuilder.on_request_end span outcome
          = DefaultRootSpanBuilder.on_request_end span outcome)
    ∧ (∀ r : ServiceRequest,
        (TraceRootSpanBuilder.on_request_start r).attrs
            = (DefaultRootSpanBuilder.on_request_start r).attrs
        ∧ (DebugRootSpanBuilder.on_request_start r).attrs
            = (DefaultRootSpanBuilder.on_request_start r).attrs
        ∧ (InfoRootSpanBuilder.on_request_start r).attrs
            = (DefaultRootSpanBuilder.on_request_start r).attrs
        ∧ (WarnRootSpanBuilder.on_request_start r).attrs
            = (DefaultRootSpanBuilder.on_request_start r).attrs
        ∧ (ErrorRootSpanBuilder.on_request_start r).attrs
            = (DefaultRootSpanBuilder.on_request_start r).attrs)
    ∧ (∀ r : ServiceRequest,
        (TraceRootSpanBuilder.on_request_start r).level = Level.trace
        ∧ (DebugRootSpanBuilder.on_request_start r).level = Level.debug
        ∧ (InfoRootSpanBuilder.on_request_start r).level = Level.info
        ∧ (WarnRootSpanBuilder.on_request_start r).level = Level.warn
        ∧ (ErrorRootSpanBuilder.on_request_start r).level = Level.error
        ∧ (DefaultRootSpanBuilder.on_request_start r).level = Level.info) :=
  ⟨fun _ _ => rfl, fun _ _ => rfl, fun _ _ => rfl, fun _ _ => rfl,
   fun _ _ => rfl, fun _ => ⟨rfl, rfl, rfl, rfl, rfl⟩,
   fun _ => ⟨rfl, rfl, rfl, rfl, rfl, rfl⟩⟩

/-- C6: on_request_end is total: on every outcome it only extends the
span with a batch of recordings (end_fields) and returns; every
recording targets one of the four annotation fields and, per
end_fields, error values enter only as their Display/Debug strings. -/
theorem C6_never_fails (span : Span) (outcome : Outcome) :
    DefaultRootSpanBuilder.on_request_end span outcome
      = span.append (end_fields outcome)
    ∧ ((end_fields outcome).all (fun p =>
          p.1 == "exception.message" || p.1 == "exception.details"
            || p.1 == "http.status_code" || p.1 == "otel.status_code"))
        = true := by
  refine ⟨on_request_end_eq span outcome, ?_⟩
  cases outcome with
  | ok r =>
    cases h : r.response.error with
    | none => simp only [end_fields, h]; rfl
    | some e =>
      simp only [end_fields, h, error_fields]
      by_cases hc : r.status.is_client_error = true <;> simp [hc]
  | error e =>
    simp only [end_fields, error_fields]
    by_cases hc : e.as_response_error.status_code.is_client_error = true <;>
      simp [hc]

/-- C7: finalizing the span leaves the outcome untouched: threading the
whole (span, outcome) state through on_request_end changes only the
span component. -/
theorem C7_outcome_read_only (st : EndState) :
    (on_request_end_st st).outcome = st.outcome := by
  rw [on_request_end_st_eq]

/-- C8: for an Ok response carrying an embedded error, the exception
fields come from that embedded error while http.status_code comes from
the already-constructed response status, not from the error's own
status_code. -/
theorem C8_embedded_error (span : Span) (r : ServiceResponse) (e : Error)
    (h : r.response.error = some e) :
    Span.lookup (DefaultRootSpanBuilder.on_request_end span (Except.ok r))
        "exception.message"
      = Span.lookup span "exception.message"
          ++ [FieldValue.str e.as_response_error.display]
    ∧ Span.lookup (DefaultRootSpanBuilder.on_request_end span (Except.ok r))
        "exception.details"
      = Span.lookup span "exception.details"
          ++ [FieldValue.str e.as_response_error.debug]
    ∧ Span.lookup (DefaultRootSpanBuilder.on_request_end span (Except.ok r))
        "http.status_code"
      = Span.lookup span "http.status_code"
          ++ [FieldValue.int (i32_of_u16 r.response.status.as_u16)] := by
  simp only [on_request_end_eq, lookup_append, end_fields, h,
    lookup_error_fields_message, lookup_error_fields_details,
    lookup_error_fields_status, ServiceResponse.status]
  exact ⟨trivial, trivial, trivial⟩

/-- C8 witness: the theorem applied to a 500 response that embeds a 404
error — the recorded status is the response's 500, not the error's
404. -/
theorem C8_embedded_error_witness :
    (ServiceResponse.mk (HttpResponse.mk (StatusCode.mk 500)
        (some (Error.mk (ResponseError.mk "not found" "NotFound"
          (StatusCode.mk 404)))))).response.error
      = some (Error.mk (ResponseError.mk "not found" "NotFound"
          (StatusCode.mk 404)))
    ∧ (Span.lookup
          (DefaultRootSpanBuilder.on_request_end (Span.mk [])
            (Except.ok (ServiceResponse.mk (HttpResponse.mk (StatusCode.mk 500)
              (some (Error.mk (ResponseError.mk "not found" "NotFound"
                (StatusCode.mk 404))))))))
          "exception.message"
        = Span.lookup (Span.mk []) "exception.message"
            ++ [FieldValue.str (Error.mk (ResponseError.mk "not found"
                 "NotFound" (StatusCode.mk 404))).as_response_error.display]
      ∧ Span.lookup
          (DefaultRootSpanBuilder.on_request_end (Span.mk [])
            (Except.ok (ServiceResponse.mk (HttpResponse.mk (StatusCode.mk 500)
              (some (Error.mk (ResponseError.mk "not found" "NotFound"
                (StatusCode.mk 404))))))))
          "exception.details"
        = Span.lookup (Span.mk []) "exception.details"
            ++ [FieldValue.str (Error.mk (ResponseError.mk "not found"
                 "NotFound" (StatusCode.mk 404))).as_response_error.debug]
      ∧ Span.lookup
          (DefaultRootSpanBuilder.on_request_end (Span.mk [])
            (Except.ok (ServiceResponse.mk (HttpResponse.mk (StatusCode.mk 500)
              (some (Error.mk (ResponseError.mk "not found" "NotFound"
                (StatusCode.mk 404))))))))
          "http.status_code"
        = Span.lookup (Span.mk []) "http.status_code"
            ++ [FieldValue.int (i32_of_u16
                 (ServiceResponse.mk (HttpResponse.mk (StatusCode.mk 500)
                   (some (Error.mk (ResponseError.mk "not found" "NotFound"
                     (StatusCode.mk 404)))))).response.status.as_u16)]) :=
  ⟨rfl,
   C8_embedded_error (Span.mk [])
     (ServiceResponse.mk (HttpResponse.mk (StatusCode.mk 500)
       (some (Error.mk (ResponseError.mk "not found" "NotFound"
         (StatusCode.mk 404))))))
     (Error.mk (ResponseError.mk "not found" "NotFound" (StatusCode.mk 404)))
     rfl⟩

/-- C9: every call records http.status_code exactly once and
otel.status_code exactly once, the latter always with value "OK" or
"ERROR". -/
theorem C9_recorded_once (span : Span) (outcome : Outcome) :
    (Span.lookup (DefaultRootSpanBuilder.on_request_end span outcome)
        "http.status_code").length
      = (Span.lookup span "http.status_code").length + 1
    ∧ ∃ v, Span.lookup (DefaultRootSpanBuilder.on_request_end span outcome)
          "otel.status_code"
        = Span.lookup span "otel.status_code" ++ [FieldValue.str v]
      ∧ (v = "OK" ∨ v = "ERROR") := by
  simp only [on_request_end_eq, lookup_append]
  cases outcome with
  | ok r =>
    cases h : r.response.error with
    | none =>
      simp only [end_fields, h, lookup_ok_fields_status, lookup_ok_fields_otel]
      exact ⟨by simp, "OK", rfl, Or.inl rfl⟩
    | some e =>
      simp only [end_fields, h, lookup_error_fields_status,
        lookup_error_fields_otel]
      refine ⟨by simp, _, rfl, ?_⟩
      by_cases hc : 400 ≤ r.status.as_u16 ∧ r.status.as_u16 ≤ 499
      · exact Or.inl (if_pos hc)
      · exact Or.inr (if_neg hc)
  | error e =>
    simp only [end_fields, lookup_error_fields_status,
      lookup_error_fields_otel]
    refine ⟨by simp, _, rfl, ?_⟩
    by_cases hc : 400 ≤ e.as_response_error.status_code.as_u16
        ∧ e.as_response_error.status_code.as_u16 ≤ 499
    · exact Or.inl (if_pos hc)
    · exact Or.inr (if_neg hc)

/-- C10: the value recorded in http.status_code is the exact status
number — the u16 widened to i32 without truncation or overflow — for
every representable status code (100..=999). -/
theorem C10_status_widening (span : Span) (outcome : Outcome)
    (h : (recorded_status outcome).isValid) :
    Span.lookup (DefaultRootSpanBuilder.on_request_end span outcome)
        "http.status_code"
      = Span.lookup span "http.status_code"
          ++ [FieldValue.int (Int.ofNat (recorded_status outcome).code)]
    ∧ (0 : Int) ≤ Int.ofNat (recorded_status outcome).code
    ∧ Int.ofNat (recorded_status outcome).code < 2 ^ 31 := by
  have hlt : (recorded_status outcome).code < 65536 := by
    rcases h with ⟨h1, h2⟩
    omega
  refine ⟨?_, ?_, ?_⟩
  · simp only [on_request_end_eq, lookup_append]
    cases outcome with
    | ok r =>
      cases he : r.response.error with
      | none =>
        simp only [end_fields, he, lookup_ok_fields_status]
        rw [i32_of_u16_code r.response.status hlt]
        rfl
      | some e =>
        simp only [end_fields, he, lookup_error_fields_status,
          ServiceResponse.status]
        rw [i32_of_u16_code r.response.status hlt]
        rfl
    | error e =>
      simp only [end_fields, lookup_error_fields_status]
      rw [i32_of_u16_code e.as_response_error.status_code hlt]
      rfl
  · simp only [Int.ofNat_eq_coe]
    omega
  · simp only [Int.ofNat_eq_coe]
    rcases h with ⟨h1, h2⟩
    omega

/-- C10 witness: the theorem applied to an error-free 204 response over
an empty span. -/
theorem C10_status_widening_witness :
    (recorded_status (Except.ok (ServiceResponse.mk
        (HttpResponse.mk (StatusCode.mk 204) none)))).isValid
    ∧ (Span.lookup
          (DefaultRootSpanBuilder.on_request_end (Span.mk [])
            (Except.ok (ServiceResponse.mk
              (HttpResponse.mk (StatusCode.mk 204) none))))
          "http.status_code"
        = Span.lookup (Span.mk []) "http.status_code"
            ++ [FieldValue.int (Int.ofNat
                 (recorded_status (Except.ok (ServiceResponse.mk
                   (HttpResponse.mk (StatusCode.mk 204) none)))).code)]
      ∧ (0 : Int) ≤ Int.ofNat
            (recorded_status (Except.ok (ServiceResponse.mk
              (HttpResponse.mk (StatusCode.mk 204) none)))).code
      ∧ Int.ofNat (recorded_status (Except.ok (ServiceResponse.mk
            (HttpResponse.mk (StatusCode.mk 204) none)))).code < 2 ^ 31) :=
  ⟨by decide,
   C10_status_widening (Span.mk [])
     (Except.ok (ServiceResponse.mk (HttpResponse.mk (StatusCode.mk 204) none)))
     (by decide)⟩

end TracingActixWeb
